import Mathlib

/-!
# Fiscal Receipt Canonicalization, Signing, Chaining and Offline-Replay Engine

A shallow embedding of the fiscal core of this repository: the sign-rule
engine, receipt-line builder and tax aggregator (`apply_sign`,
`build_receipt_lines`, `build_receipt_taxes` from the credit/debit
implementation pack), the bucket VAT helper (`calculate_bucket_vat` from the
SubmitReceipt structure fix pack), the frontend totals helpers
(`round2`, `computeInvoiceTotals` from `InvoiceHeader.jsx`) and the frontend
items-table line-total computation (`updateItem` from
`InvoiceItemsTable.jsx`), together with models of the canonical builder,
counter/chain manager, offline replay engine and duplicate guard, which the
repository describes in prose only.

Decimal quantities are embedded as exact rationals; the JavaScript
`Math.round` is `fun x => ⌊x + 1/2⌋` (ties toward positive infinity) and
Python's `Decimal.quantize(Decimal("0.01"), ROUND_HALF_UP)` rounds ties away
from zero.
-/

namespace Fiscal

/-- Document types of the spec's data model.  The source code spells them
`FISCALINVOICE`, `FISCALRECEIPT`, `CREDITNOTE` and `DEBITNOTE`. -/
inductive DocType where
  | SALE_INVOICE
  | SALE_RECEIPT
  | CREDIT_NOTE
  | DEBIT_NOTE
deriving DecidableEq, Repr

/-- `apply_sign` from the credit/debit implementation pack:
`CREDITNOTE` maps a value to `-abs(value)`, everything else to `abs(value)`. -/
def apply_sign (value : ℚ) (receipt_type : DocType) : ℚ :=
  if receipt_type = DocType.CREDIT_NOTE then -|value| else |value|

/-- An input line as supplied to `build_receipt_lines`: unit price, quantity,
tax percent, tax identifier, tax code, HS code and name. -/
structure LineInput where
  price : ℚ
  qty : ℚ
  taxPercent : ℚ
  taxID : ℕ
  taxCode : String
  hsCode : String
  name : String
deriving DecidableEq, Repr

/-- A built receipt line, mirroring the dictionary produced by
`build_receipt_lines`: `receiptLineNo`, signed `receiptLinePrice`,
`receiptLineQuantity`, signed `receiptLineTotal`, `taxCode`, `taxPercent`
and `taxID`. -/
structure BuiltLine where
  lineNo : ℕ
  price : ℚ
  quantity : ℚ
  total : ℚ
  taxCode : String
  taxPercent : ℚ
  taxID : ℕ
deriving DecidableEq, Repr

/-- One iteration of `build_receipt_lines`: the net is `price * qty`, the
sign rule is applied to the unit price and the net line total. -/
def buildLine (idx : ℕ) (l : LineInput) (t : DocType) : BuiltLine :=
  { lineNo := idx
    price := apply_sign l.price t
    quantity := l.qty
    total := apply_sign (l.price * l.qty) t
    taxCode := l.taxCode
    taxPercent := l.taxPercent
    taxID := l.taxID }

/-- `build_receipt_lines` enumerating from `idx`. -/
def build_receipt_lines_from (idx : ℕ) (t : DocType) : List LineInput → List BuiltLine
  | [] => []
  | l :: rest => buildLine idx l t :: build_receipt_lines_from (idx + 1) t rest

/-- `build_receipt_lines` from the credit/debit implementation pack
(enumeration starts at 1). -/
def build_receipt_lines (lines : List LineInput) (t : DocType) : List BuiltLine :=
  build_receipt_lines_from 1 t lines

/-- A tax bucket, mirroring the dictionary built by `build_receipt_taxes`:
`taxID`, `taxCode`, `taxPercent`, accumulated `taxAmount` and accumulated
`salesAmountWithTax`. -/
structure TaxBucket where
  taxID : ℕ
  taxCode : String
  taxPercent : ℚ
  taxAmount : ℚ
  salesAmountWithTax : ℚ
deriving DecidableEq, Repr

/-- The (exact, unrounded) per-line tax added to a bucket by
`build_receipt_taxes`: `receiptLineTotal * taxPercent / 100`. -/
def lineTax (l : BuiltLine) : ℚ := l.total * l.taxPercent / 100

/-- Adding one built line to the bucket list of `build_receipt_taxes`.
Buckets are keyed by `taxID`; a new key is appended at the end, matching
Python dict insertion order. -/
def addLineToBuckets (l : BuiltLine) : List TaxBucket → List TaxBucket
  | [] => [{ taxID := l.taxID
             taxCode := l.taxCode
             taxPercent := l.taxPercent
             taxAmount := lineTax l
             salesAmountWithTax := l.total + lineTax l }]
  | b :: rest =>
    if b.taxID = l.taxID then
      { b with
        taxAmount := b.taxAmount + lineTax l
        salesAmountWithTax := b.salesAmountWithTax + (l.total + lineTax l) } :: rest
    else
      b :: addLineToBuckets l rest

/-- `build_receipt_taxes` from the credit/debit implementation pack: group
lines by `taxID`, accumulating the unrounded per-line tax and the unrounded
per-line gross into each bucket. -/
def build_receipt_taxes (lines : List BuiltLine) : List TaxBucket :=
  lines.foldl (fun acc l => addLineToBuckets l acc) []

/-- JavaScript `Math.round` on exact values: half-cent ties go toward
positive infinity. -/
def jsRound (x : ℚ) : ℤ := ⌊x + 1 / 2⌋

/-- `round2` from `InvoiceHeader.jsx`: `Math.round(val * 100) / 100`. -/
def round2 (x : ℚ) : ℚ := (jsRound (x * 100) : ℚ) / 100

/-- `round2` from the receipt fix pack (backend):
`Decimal(value).quantize(Decimal("0.01"), rounding=ROUND_HALF_UP)`, i.e.
two-decimal rounding with ties away from zero. -/
def roundHalfUp2 (x : ℚ) : ℚ :=
  if 0 ≤ x then (⌊x * 100 + 1 / 2⌋ : ℚ) / 100 else -((⌊-x * 100 + 1 / 2⌋ : ℚ) / 100)

/-- Rounding to an integer with ties to even, as in Python's
`ROUND_HALF_EVEN`. -/
def roundHalfEvenInt (x : ℚ) : ℤ :=
  if x - ⌊x⌋ = 1 / 2 then (if ⌊x⌋ % 2 = 0 then ⌊x⌋ else ⌊x⌋ + 1)
  else ⌊x + 1 / 2⌋

/-- `calculate_bucket_vat` from the SubmitReceipt structure fix pack:
`((net_total * tax_percent) / 100).quantize(TWOPLACES, ROUND_HALF_EVEN)`. -/
def calculate_bucket_vat (net_total tax_percent : ℚ) : ℚ :=
  (roundHalfEvenInt (net_total * tax_percent / 100 * 100) : ℚ) / 100

/-- An invoice item of the frontend state: quantity, unit price, tax percent
and tax code, as consumed by `computeInvoiceTotals`. -/
structure InvItem where
  quantity : ℚ
  unit_price : ℚ
  tax_percent : ℚ
  tax_code : String
deriving DecidableEq, Repr

/-- The tax-code normalization of `computeInvoiceTotals`:
`(it.tax_code || "").trim() || "VAT"`. -/
def normCode (s : String) : String := if s.trim = "" then "VAT" else s.trim

/-- The grouping key of `computeInvoiceTotals`: the (tax code, tax percent)
pair. -/
def itemKey (it : InvItem) : String × ℚ := (normCode it.tax_code, it.tax_percent)

/-- The rounded line subtotal of `computeInvoiceTotals`:
`round2(qty * price)`. -/
def lineSub (it : InvItem) : ℚ := round2 (it.quantity * it.unit_price)

/-- Accumulating a value under a key, mirroring
`taxByKey[key] = (taxByKey[key] || 0) + lineSubtotal` with JavaScript object
insertion order. -/
def addToKey (k : String × ℚ) (v : ℚ) : List ((String × ℚ) × ℚ) → List ((String × ℚ) × ℚ)
  | [] => [(k, v)]
  | (k1, v1) :: rest =>
    if k1 = k then (k1, v1 + v) :: rest else (k1, v1) :: addToKey k v rest

/-- The `taxByKey` map of `computeInvoiceTotals`, as an insertion-ordered
association list from (tax code, tax percent) keys to accumulated rounded
net amounts. -/
def taxByKey (items : List InvItem) : List ((String × ℚ) × ℚ) :=
  items.foldl (fun m it => addToKey (itemKey it) (lineSub it) m) []

/-- The per-bucket gross of `computeInvoiceTotals`:
`salesWithTax = round2(amt * (1 + pct / 100))`. -/
def bucketSalesWithTax (pct amt : ℚ) : ℚ := round2 (amt * (1 + pct / 100))

/-- `subtotal` of `computeInvoiceTotals`: the rounded sum of rounded line
subtotals. -/
def subtotal (items : List InvItem) : ℚ := round2 ((items.map lineSub).sum)

/-- `totalTax` of `computeInvoiceTotals`: the rounded sum over buckets of
`salesWithTax - amt`. -/
def totalTax (items : List InvItem) : ℚ :=
  round2 (((taxByKey items).map (fun kv => bucketSalesWithTax kv.1.2 kv.2 - kv.2)).sum)

/-- `grandTotal` of `computeInvoiceTotals`: `round2(subtotal + totalTax)`. -/
def grandTotal (items : List InvItem) : ℚ := round2 (subtotal items + totalTax items)

/-- The sum over all tax buckets of the bucket gross (`salesWithTax`),
the quantity the spec's invariant compares with the receipt total. -/
def sumBucketGross (items : List InvItem) : ℚ :=
  ((taxByKey items).map (fun kv => bucketSalesWithTax kv.1.2 kv.2)).sum

/-- The line-total computation of `updateItem` in `InvoiceItemsTable.jsx`:
`lineSub = Math.round(qty * price * 100) / 100` followed by
`line_total = Math.round(lineSub * (1 + pct / 100) * 100) / 100`. -/
def jsLineTotal (qty price pct : ℚ) : ℚ :=
  round2 (round2 (qty * price) * (1 + pct / 100))

/-- The per-line validation of the receipt validation guard (invoice
creation pack, phase 4): `line_total == quantity * unit_price`, rejected
locally before calling FDMS on mismatch. -/
def lineGuard (line_total quantity unit_price : ℚ) : Except String Unit :=
  if line_total = quantity * unit_price then Except.ok ()
  else Except.error "line total mismatch: rejected before submission"

/-- A tax option of the `INVOICE_TAXES` constant in `InvoiceItemsTable.jsx`. -/
structure TaxOption where
  taxID : ℕ
  taxPercent : ℚ
  taxCode : String
  name : String
deriving DecidableEq, Repr

/-- The `INVOICE_TAXES` constant of `InvoiceItemsTable.jsx`. -/
def INVOICE_TAXES : List TaxOption :=
  [⟨1, 0, "1", "0% (1)"⟩, ⟨2, 0, "2", "0% (2)"⟩, ⟨517, 31 / 2, "517", "15.5%"⟩]

/-- The tax filter of `InvoiceItemsTable.jsx`: a device that is not VAT
registered only sees the 0% taxes. -/
def availableTaxes (isVatRegistered : Bool) : List TaxOption :=
  if isVatRegistered then INVOICE_TAXES
  else INVOICE_TAXES.filter (fun t => t.taxPercent = 0)

/-- The spelling of document types used in payloads and in the canonical
string (`receiptType`). -/
def docTypeStr : DocType → String
  | DocType.SALE_INVOICE => "FISCALINVOICE"
  | DocType.SALE_RECEIPT => "FISCALRECEIPT"
  | DocType.CREDIT_NOTE => "CREDITNOTE"
  | DocType.DEBIT_NOTE => "DEBITNOTE"

/-- Conversion of a two-decimal amount to integer minor units (cents), as in
"Convert totals to cents". -/
def toCents (q : ℚ) : ℤ := ⌊q * 100 + 1 / 2⌋

/-- Zero-padding of the fractional cents part to two digits. -/
def pad2 (n : ℤ) : String := if n < 10 then "0" ++ toString n else toString n

/-- Tax percent formatted to exactly two decimal places, as required by the
canonical tax block: `15 -> "15.00"`, `14.5 -> "14.50"`, `0 -> "0.00"`. -/
def fmt2 (q : ℚ) : String :=
  toString (⌊q * 100⌋ / 100) ++ "." ++ pad2 (⌊q * 100⌋ % 100)

/-- A receipt as assembled by the backend flow, with the buyer fields that
the canonical string must exclude. -/
structure Receipt where
  deviceID : String
  docType : DocType
  currency : String
  globalNo : ℕ
  date : String
  total : ℚ
  lines : List BuiltLine
  taxes : List TaxBucket
  previousHash : Option String
  buyerName : String
  buyerTIN : String
  buyerVATNumber : String
  buyerAddress : String
deriving DecidableEq, Repr

/-- One canonical tax-block segment: `taxCode + formattedTaxPercent +
taxAmountInCents + salesAmountWithTaxInCents`. -/
def serializeBucket (b : TaxBucket) : String :=
  b.taxCode ++ fmt2 b.taxPercent ++ toString (toCents b.taxAmount)
    ++ toString (toCents b.salesAmountWithTax)

/-- The serialized `receiptTaxes` block: the bucket segments concatenated in
bucket order. -/
def taxesBlock (bs : List TaxBucket) : String := String.join (bs.map serializeBucket)

/-- Modelled from the spec: the executable canonical builder is not under
`src/`; this follows the canonical-order sections of the invoice creation
pack ("Canonical String Order (NO SEPARATORS)") and the dual-mode fix pack
(Section 13.2.1): `deviceID + receiptType + receiptCurrency +
receiptGlobalNo + receiptDate + receiptTotalInCents + receiptTaxes +
previousReceiptHash (if not first)`.  Buyer fields are not part of the
canonical string. -/
def build (r : Receipt) : String :=
  r.deviceID ++ docTypeStr r.docType ++ r.currency ++ toString r.globalNo ++ r.date
    ++ toString (toCents r.total) ++ taxesBlock r.taxes
    ++ (match r.previousHash with
        | none => ""
        | some h => h)

/-- The `taxID` keys of a line list in first-encounter order while scanning
left to right. -/
def firstKeys (ks : List ℕ) : List ℕ :=
  ks.foldl (fun acc k => if k ∈ acc then acc else acc ++ [k]) []

/-- A fiscal device as the pipeline sees it: its identifier and the
VAT-registration flag persisted at registration
(`device.is_vat_registered`). -/
structure Device where
  deviceID : String
  is_vat_registered : Bool
deriving DecidableEq, Repr

/-- `receipt_contains_vat` as called by the dual-mode fix pack's VAT guard.
Modelled from the spec: its body is not under `src/`; a receipt contains VAT
when some line carries a nonzero tax percent. -/
def receipt_contains_vat (r : Receipt) : Bool :=
  r.lines.any (fun l => l.taxPercent ≠ 0)

/-- The sum over the receipt's tax buckets of the gross
(`salesAmountWithTax`). -/
def bucketGrossSum (r : Receipt) : ℚ :=
  (r.taxes.map TaxBucket.salesAmountWithTax).sum

/-- A signed receipt: the receipt, its canonical string, hash and device
signature. -/
structure SignedReceipt where
  receipt : Receipt
  canonical : String
  hash : String
  signature : String
deriving DecidableEq, Repr

/-- Modelled from the spec: the hash function is cryptographic and opaque;
it is embedded as an injective tagging of the canonical string. -/
def hashOf (s : String) : String := "sha256:" ++ s

/-- Modelled from the spec: the pre-signing validation of the submission
pipeline.  It raises `ValidationError("VAT not allowed for non-VAT
taxpayer")` when the device is not VAT registered and the receipt contains
VAT (dual-mode fix pack, step 5), and it rejects the receipt when the
receipt total does not equal the summed bucket gross (the pre-submission
assertion of the SubmitReceipt structure fix pack); it never modifies the
receipt. -/
def validateReceipt (d : Device) (r : Receipt) : Except String Unit :=
  if ¬ d.is_vat_registered ∧ receipt_contains_vat r then
    Except.error "VAT not allowed for non-VAT taxpayer"
  else if r.total ≠ bucketGrossSum r then
    Except.error "total mismatch: receipt rejected before signing"
  else Except.ok ()

/-- Signing a receipt: canonical string, hash of the canonical string,
signature over it. -/
def signReceipt (r : Receipt) : SignedReceipt :=
  { receipt := r
    canonical := build r
    hash := hashOf (build r)
    signature := "sig:" ++ hashOf (build r) }

/-- Modelled from the spec: the submission pipeline runs validation before
any hash or signature is generated; a validation failure short-circuits with
the error and no `SignedReceipt` is ever produced. -/
def submitReceipt (d : Device) (r : Receipt) : Except String SignedReceipt :=
  match validateReceipt d r with
  | Except.error e => Except.error e
  | Except.ok _ => Except.ok (signReceipt r)

/-- The durable per-device counter state: the stored last allocated receipt
number and the hash of the last confirmed receipt. -/
structure CounterState where
  stored : ℕ
  lastHash : Option String
deriving DecidableEq, Repr

/-- An allocation handed to a submission: the global receipt number and the
previous-receipt hash. -/
structure Allocation where
  number : ℕ
  prevHash : Option String
deriving DecidableEq, Repr

/-- Modelled from the spec: `allocateNext(device) -> (globalNumber,
previousHash)` reads the durable counter without persisting an increment. -/
def allocateNext (s : CounterState) : Allocation :=
  { number := s.stored + 1, prevHash := s.lastHash }

/-- The gateway outcome of one submission attempt. -/
inductive SubmitOutcome where
  | confirmed (gatewayHash : String)
  | failed
  | queued
deriving DecidableEq, Repr

/-- A pending (failed or queued) submission stored for retry, carrying the
already-allocated number and previous hash. -/
structure PendingSubmission where
  alloc : Allocation
  canonical : String
deriving DecidableEq, Repr

/-- The per-device durable store: the counter and an optional pending
submission awaiting retry. -/
structure DeviceStore where
  counter : CounterState
  pending : Option PendingSubmission
deriving DecidableEq, Repr

/-- Modelled from the spec: beginning a submission either reuses the
allocation of a stored pending submission (a retry) or allocates fresh from
the durable counter, without persisting the increment yet. -/
def beginSubmission (st : DeviceStore) : Allocation × DeviceStore :=
  match st.pending with
  | some p => (p.alloc, st)
  | none => (allocateNext st.counter, st)

/-- Modelled from the spec: finishing a submission persists the counter and
the new chain hash only when the gateway confirmed success; a failed or
queued submission stores the pending receipt unchanged for retry and leaves
the counter untouched. -/
def finishSubmission (st : DeviceStore) (a : Allocation) (canonical : String) :
    SubmitOutcome → DeviceStore
  | SubmitOutcome.confirmed h =>
    { counter := { stored := a.number, lastHash := some h }, pending := none }
  | SubmitOutcome.failed =>
    { counter := st.counter, pending := some { alloc := a, canonical := canonical } }
  | SubmitOutcome.queued =>
    { counter := st.counter, pending := some { alloc := a, canonical := canonical } }

/-- Lifecycle state of an offline queue entry. -/
inductive EntryState where
  | QUEUED
  | SUBMITTING
  | SUBMITTED
  | FAILED
deriving DecidableEq, Repr

/-- An offline queue entry: the ordering key (receipt number), the chained
previous hash, the entry's own hash, and its lifecycle state. -/
structure QueueEntry where
  number : ℕ
  prevHash : Option String
  hash : String
  state : EntryState
deriving DecidableEq, Repr

/-- Modelled from the spec: loading the QUEUED entries of a device for
replay; FAILED, SUBMITTING and SUBMITTED entries are not picked up. -/
def loadQueued (entries : List QueueEntry) : List QueueEntry :=
  entries.filter (fun e => e.state = EntryState.QUEUED)

/-- Modelled from the spec: sequential replay after reconnect.  Starting
from the last confirmed receipt number and hash, each entry is checked for
the next consecutive number and the matching previous hash before it is
submitted; the first inconsistency halts the whole device's replay with a
fatal ordering error, before the inconsistent entry is submitted.  The
result is the list of submitted entries (in submission order) and the fatal
error, if any. -/
def replay (lastNum : ℕ) (lastHash : Option String) :
    List QueueEntry → List QueueEntry × Option String
  | [] => ([], none)
  | e :: rest =>
    if e.number = lastNum + 1 ∧ e.prevHash = lastHash then
      let p := replay e.number (some e.hash) rest
      (e :: p.1, p.2)
    else ([], some "fatal ordering error")

/-- Modelled from the spec: a FAILED entry transitions back to QUEUED only
through an explicit manual-review action; without it the entry stays put. -/
def retryFailed (e : QueueEntry) (manualReviewApproved : Bool) : Option QueueEntry :=
  if e.state = EntryState.FAILED ∧ manualReviewApproved then
    some { number := e.number, prevHash := e.prevHash, hash := e.hash,
           state := EntryState.QUEUED }
  else none

/-- A stored fiscal document identity for the duplicate guard: the
uniqueness triple (supplier, external invoice number, document type). -/
structure FiscalDoc where
  supplier : String
  invoiceNumber : String
  docType : DocType
deriving DecidableEq, Repr

/-- Modelled from the spec: `checkUnique(supplier, externalInvoiceNumber,
documentType)` returns `DuplicateError` exactly when the triple is already
stored. -/
def checkUnique (store : List FiscalDoc) (s n : String) (t : DocType) :
    Except String Unit :=
  if store.any (fun d => d.supplier = s ∧ d.invoiceNumber = n ∧ d.docType = t) then
    Except.error "DuplicateError"
  else Except.ok ()

/-- A document draft as entered: the uniqueness triple plus, for correction
documents, the reference to the original SALE document (its global number
and its external invoice number). -/
structure DocDraft where
  supplier : String
  invoiceNumber : String
  docType : DocType
  reference : Option (ℕ × String)
deriving DecidableEq, Repr

/-- Whether a draft is a correction document (credit or debit note). -/
def isCorrection (c : DocDraft) : Bool :=
  c.docType = DocType.CREDIT_NOTE ∨ c.docType = DocType.DEBIT_NOTE

/-- Modelled from the spec: a CREDIT_NOTE or DEBIT_NOTE must carry a
reference to the original SALE document's global number, and may never
reuse the original's external invoice number as its own number. -/
def validateCorrection (c : DocDraft) : Except String Unit :=
  if isCorrection c then
    match c.reference with
    | none => Except.error "referencedReceiptGlobalNo required"
    | some ref =>
      if c.invoiceNumber = ref.2 then Except.error "DuplicateError" else Except.ok ()
  else Except.ok ()

/-- Modelled from the spec: the data-entry time check (fast-fail):
correction rules, then the uniqueness check. -/
def entryCheck (store : List FiscalDoc) (c : DocDraft) : Except String Unit :=
  match validateCorrection c with
  | Except.error e => Except.error e
  | Except.ok _ => checkUnique store c.supplier c.invoiceNumber c.docType

/-- Modelled from the spec: submission runs the data-entry check and then
re-checks the uniqueness triple transactionally immediately before
submitting; only then is the document stored. -/
def submitDocument (store : List FiscalDoc) (c : DocDraft) :
    Except String (List FiscalDoc) :=
  match entryCheck store c with
  | Except.error e => Except.error e
  | Except.ok _ =>
    match checkUnique store c.supplier c.invoiceNumber c.docType with
    | Except.error e => Except.error e
    | Except.ok _ =>
      Except.ok ({ supplier := c.supplier, invoiceNumber := c.invoiceNumber,
                   docType := c.docType } :: store)

/-- Two-decimal (cent) quantities: the amounts the engine manipulates after
rounding. -/
def IsCent (x : ℚ) : Prop := ∃ n : ℤ, x = (n : ℚ) / 100

/-! ## Helper lemmas -/

theorem floorEval {x : ℚ} {n : ℤ} (h1 : (n : ℚ) ≤ x) (h2 : x < n + 1) : ⌊x⌋ = n :=
  Int.floor_eq_iff.mpr ⟨h1, h2⟩

theorem jsRound_intCast (n : ℤ) : jsRound (n : ℚ) = n := by
  unfold jsRound
  rw [Int.floor_int_add]
  norm_num

theorem round2_isCent (x : ℚ) : IsCent (round2 x) := ⟨jsRound (x * 100), rfl⟩

theorem round2_of_isCent {x : ℚ} (h : IsCent x) : round2 x = x := by
  obtain ⟨n, rfl⟩ := h
  unfold round2
  rw [show (n : ℚ) / 100 * 100 = (n : ℚ) by field_simp, jsRound_intCast]

theorem isCent_zero : IsCent 0 := ⟨0, by norm_num⟩

theorem isCent_add {x y : ℚ} (hx : IsCent x) (hy : IsCent y) : IsCent (x + y) := by
  obtain ⟨n, rfl⟩ := hx
  obtain ⟨m, rfl⟩ := hy
  exact ⟨n + m, by push_cast; ring⟩

theorem isCent_neg {x : ℚ} (hx : IsCent x) : IsCent (-x) := by
  obtain ⟨n, rfl⟩ := hx
  exact ⟨-n, by push_cast; ring⟩

theorem isCent_sub {x y : ℚ} (hx : IsCent x) (hy : IsCent y) : IsCent (x - y) := by
  rw [sub_eq_add_neg]
  exact isCent_add hx (isCent_neg hy)

theorem isCent_sum {l : List ℚ} (h : ∀ x ∈ l, IsCent x) : IsCent l.sum := by
  induction l with
  | nil => exact isCent_zero
  | cons a t ih =>
    rw [List.sum_cons]
    exact isCent_add (h a (List.mem_cons_self a t)) (ih fun x hx => h x (List.mem_cons_of_mem a hx))

theorem round2_eval {x : ℚ} {n : ℤ} (h1 : (n : ℚ) ≤ x * 100 + 1 / 2)
    (h2 : x * 100 + 1 / 2 < n + 1) : round2 x = (n : ℚ) / 100 := by
  unfold round2 jsRound
  rw [floorEval h1 h2]

theorem apply_sign_nonneg_sale {v : ℚ} (t : DocType) (ht : t ≠ DocType.CREDIT_NOTE)
    (hv : 0 ≤ v) : apply_sign v t = v := by
  unfold apply_sign
  rw [if_neg ht, abs_of_nonneg hv]

theorem mem_build_receipt_lines_from {bl : BuiltLine} {t : DocType} :
    ∀ {i : ℕ} {ls : List LineInput}, bl ∈ build_receipt_lines_from i t ls →
      ∃ l ∈ ls, ∃ j, bl = buildLine j l t := by
  intro i ls
  induction ls generalizing i with
  | nil => intro h; simp [build_receipt_lines_from] at h
  | cons a rest ih =>
    intro h
    rw [build_receipt_lines_from, List.mem_cons] at h
    rcases h with h | h
    · exact ⟨a, List.mem_cons_self a rest, i, h⟩
    · obtain ⟨l, hl, j, hj⟩ := ih h
      exact ⟨l, List.mem_cons_of_mem a hl, j, hj⟩

theorem addLineToBuckets_pred (P Q : ℚ → Prop)
    (hP : ∀ a b, P a → P b → P (a + b)) (hQ : ∀ a b, Q a → Q b → Q (a + b))
    (l : BuiltLine) (hl1 : P (lineTax l)) (hl2 : Q (l.total + lineTax l)) :
    ∀ acc, (∀ b ∈ acc, P b.taxAmount ∧ Q b.salesAmountWithTax) →
      ∀ b ∈ addLineToBuckets l acc, P b.taxAmount ∧ Q b.salesAmountWithTax := by
  intro acc
  induction acc with
  | nil =>
    intro _ b hb
    rw [addLineToBuckets, List.mem_singleton] at hb
    subst hb
    exact ⟨hl1, hl2⟩
  | cons a rest ih =>
    intro hacc b hb
    rw [addLineToBuckets] at hb
    by_cases hk : a.taxID = l.taxID
    · rw [if_pos hk, List.mem_cons] at hb
      rcases hb with hb | hb
      · subst hb
        have ha := hacc a (List.mem_cons_self a rest)
        exact ⟨hP _ _ ha.1 hl1, hQ _ _ ha.2 hl2⟩
      · exact hacc b (List.mem_cons_of_mem a hb)
    · rw [if_neg hk, List.mem_cons] at hb
      rcases hb with hb | hb
      · subst hb
        exact hacc b (List.mem_cons_self b rest)
      · exact ih (fun x hx => hacc x (List.mem_cons_of_mem a hx)) b hb

theorem build_receipt_taxes_pred (P Q : ℚ → Prop)
    (hP : ∀ a b, P a → P b → P (a + b)) (hQ : ∀ a b, Q a → Q b → Q (a + b))
    {bls : List BuiltLine}
    (hls : ∀ bl ∈ bls, P (lineTax bl) ∧ Q (bl.total + lineTax bl)) :
    ∀ b ∈ build_receipt_taxes bls, P b.taxAmount ∧ Q b.salesAmountWithTax := by
  suffices h : ∀ (ls : List BuiltLine) (acc : List TaxBucket),
      (∀ bl ∈ ls, P (lineTax bl) ∧ Q (bl.total + lineTax bl)) →
      (∀ b ∈ acc, P b.taxAmount ∧ Q b.salesAmountWithTax) →
      ∀ b ∈ ls.foldl (fun acc l => addLineToBuckets l acc) acc,
        P b.taxAmount ∧ Q b.salesAmountWithTax by
    exact h bls [] hls (by intro b hb; simp at hb)
  intro ls
  induction ls with
  | nil => intro acc _ hacc b hb; exact hacc b hb
  | cons a rest ih =>
    intro acc hls hacc b hb
    rw [List.foldl_cons] at hb
    have ha := hls a (List.mem_cons_self a rest)
    exact ih _ (fun x hx => hls x (List.mem_cons_of_mem a hx))
      (addLineToBuckets_pred P Q hP hQ a ha.1 ha.2 acc hacc) b hb

theorem sum_map_sub_add {α : Type} (l : List α) (f g : α → ℚ) :
    (l.map (fun x => f x - g x)).sum + (l.map g).sum = (l.map f).sum := by
  induction l with
  | nil => simp
  | cons a t ih =>
    simp only [List.map_cons, List.sum_cons]
    linarith [ih]

theorem addToKey_sum (k : String × ℚ) (v : ℚ) (m : List ((String × ℚ) × ℚ)) :
    ((addToKey k v m).map Prod.snd).sum = (m.map Prod.snd).sum + v := by
  induction m with
  | nil => simp [addToKey]
  | cons p rest ih =>
    obtain ⟨k1, v1⟩ := p
    rw [addToKey]
    by_cases h : k1 = k
    · rw [if_pos h]
      simp only [List.map_cons, List.sum_cons]
      ring
    · rw [if_neg h]
      simp only [List.map_cons, List.sum_cons, ih]
      ring

theorem addToKey_isCent {m : List ((String × ℚ) × ℚ)} {k : String × ℚ} {v : ℚ}
    (hm : ∀ p ∈ m, IsCent p.2) (hv : IsCent v) :
    ∀ p ∈ addToKey k v m, IsCent p.2 := by
  induction m with
  | nil =>
    intro p hp
    rw [addToKey, List.mem_singleton] at hp
    subst hp
    exact hv
  | cons q rest ih =>
    intro p hp
    obtain ⟨k1, v1⟩ := q
    rw [addToKey] at hp
    by_cases h : k1 = k
    · rw [if_pos h, List.mem_cons] at hp
      rcases hp with hp | hp
      · subst hp
        exact isCent_add (hm (k1, v1) (List.mem_cons_self _ rest)) hv
      · exact hm p (List.mem_cons_of_mem _ hp)
    · rw [if_neg h, List.mem_cons] at hp
      rcases hp with hp | hp
      · subst hp
        exact hm (k1, v1) (List.mem_cons_self _ rest)
      · exact ih (fun q hq => hm q (List.mem_cons_of_mem _ hq)) p hp

theorem taxByKey_go_sum (items : List InvItem) :
    ∀ m : List ((String × ℚ) × ℚ),
      ((items.foldl (fun m it => addToKey (itemKey it) (lineSub it) m) m).map
          Prod.snd).sum
        = (m.map Prod.snd).sum + (items.map lineSub).sum := by
  induction items with
  | nil => intro m; simp
  | cons a rest ih =>
    intro m
    rw [List.foldl_cons, ih, addToKey_sum]
    simp only [List.map_cons, List.sum_cons]
    ring

theorem taxByKey_sum (items : List InvItem) :
    ((taxByKey items).map Prod.snd).sum = (items.map lineSub).sum := by
  have h := taxByKey_go_sum items []
  simpa [taxByKey] using h

theorem taxByKey_isCent (items : List InvItem) :
    ∀ p ∈ taxByKey items, IsCent p.2 := by
  suffices h : ∀ (ls : List InvItem) (m : List ((String × ℚ) × ℚ)),
      (∀ p ∈ m, IsCent p.2) →
      ∀ p ∈ ls.foldl (fun m it => addToKey (itemKey it) (lineSub it) m) m,
        IsCent p.2 by
    exact h items [] (by intro p hp; simp at hp)
  intro ls
  induction ls with
  | nil => intro m hm p hp; exact hm p hp
  | cons a rest ih =>
    intro m hm p hp
    rw [List.foldl_cons] at hp
    exact ih _ (addToKey_isCent hm (round2_isCent _)) p hp

/-! ## Claim theorems -/

/-- Claim C10: the frontend rounding helper `round2` returns
`Math.round(x*100)/100`, which breaks half-cent ties toward positive
infinity: `round2(0.005) = 0.01` but `round2(-0.005) = 0`, so negative
half-cent ties round toward zero, diverging from the backend's documented
`ROUND_HALF_UP` (half away from zero) rounding, which sends `-0.005` to
`-0.01`; on nonnegative values the two agree. -/
theorem round2_tie_break_divergence :
    (∀ x : ℚ, round2 x = (jsRound (x * 100) : ℚ) / 100) ∧
    round2 (1 / 200) = 1 / 100 ∧
    round2 (-(1 / 200)) = 0 ∧
    roundHalfUp2 (-(1 / 200)) = -(1 / 100) ∧
    round2 (-(1 / 200)) ≠ roundHalfUp2 (-(1 / 200)) ∧
    (∀ x : ℚ, 0 ≤ x → round2 x = roundHalfUp2 x) := by
  have hpos : round2 (1 / 200) = 1 / 100 := by
    rw [round2_eval (n := 1) (by norm_num) (by norm_num)]
    norm_num
  have hneg : round2 (-(1 / 200)) = 0 := by
    rw [round2_eval (n := 0) (by norm_num) (by norm_num)]
    norm_num
  have hback : roundHalfUp2 (-(1 / 200)) = -(1 / 100) := by
    unfold roundHalfUp2
    rw [if_neg (by norm_num)]
    rw [show -(-(1 / 200) : ℚ) * 100 + 1 / 2 = 1 by norm_num]
    rw [show ⌊(1 : ℚ)⌋ = 1 from floorEval (by norm_num) (by norm_num)]
    norm_num
  refine ⟨fun x => rfl, hpos, hneg, hback, ?_, ?_⟩
  · rw [hneg, hback]
    norm_num
  · intro x hx
    unfold round2 jsRound roundHalfUp2
    rw [if_pos hx]

/-- Claim C2 (code bug): on the single line (unit price 5.00, quantity 1, tax
percent 15.5, taxID 517), `build_receipt_taxes` returns a bucket whose
`taxAmount` is the unrounded per-line accumulation 0.775, not the value
`round(net_sum × percent / 100, 2) = 0.78` required by the claim and by the
repository's own fix packs — `calculate_bucket_vat` (half-even) and the
backend `round2` (half-up) both give 0.78 on the same bucket. -/
theorem tax_aggregation_unrounded_bug :
    build_receipt_taxes
        (build_receipt_lines [⟨5, 1, 31 / 2, 517, "517", "11223344", "milk"⟩]
          DocType.SALE_RECEIPT)
      = [⟨517, "517", 31 / 2, 31 / 40, 231 / 40⟩] ∧
    calculate_bucket_vat 5 (31 / 2) = 39 / 50 ∧
    roundHalfUp2 (31 / 40) = 39 / 50 ∧
    ((31 : ℚ) / 40) ≠ 39 / 50 := by
  refine ⟨?_, ?_, ?_, by norm_num⟩
  · have h5 : apply_sign ((5 : ℚ) * 1) DocType.SALE_RECEIPT = 5 := by
      rw [apply_sign_nonneg_sale _ (by simp) (by norm_num)]
      norm_num
    simp only [build_receipt_taxes, build_receipt_lines, build_receipt_lines_from,
      buildLine, List.foldl_cons, List.foldl_nil, addLineToBuckets, lineTax, h5]
    norm_num
  · have h77 : ⌊(5 * (31 / 2) / 100 * 100 : ℚ)⌋ = 77 :=
      floorEval (by norm_num) (by norm_num)
    unfold calculate_bucket_vat roundHalfEvenInt
    rw [h77, if_pos (by norm_num), if_neg (by norm_num)]
    norm_num
  · unfold roundHalfUp2
    rw [if_pos (by norm_num)]
    rw [show (31 : ℚ) / 40 * 100 + 1 / 2 = 78 by norm_num]
    rw [show ⌊(78 : ℚ)⌋ = 78 from floorEval (by norm_num) (by norm_num)]
    norm_num

/-- Claim C7 (code bug): the line total computed by `updateItem` in
`InvoiceItemsTable.jsx` on quantity 1, unit price 3.00, tax percent 15.5 is
the tax-inclusive 3.47, not `quantity × unit price = 3.00`; it misses the
claimed equality by far more than a one-cent tolerance, while the backend
`build_receipt_lines` line total does equal `quantity × unit price`, and the
validation guard of the invoice creation pack rejects the frontend value
before submission. -/
theorem frontend_line_total_includes_tax_bug :
    jsLineTotal 1 3 (31 / 2) = 347 / 100 ∧
    ((347 : ℚ) / 100) ≠ 1 * 3 ∧
    |(347 : ℚ) / 100 - 1 * 3| > 1 / 100 ∧
    (buildLine 1 ⟨3, 1, 31 / 2, 517, "517", "11223344", "milk"⟩
        DocType.SALE_RECEIPT).total = 1 * 3 ∧
    lineGuard (347 / 100) 1 3
      = Except.error "line total mismatch: rejected before submission" := by
  refine ⟨?_, by norm_num, by rw [abs_of_nonneg (by norm_num)]; norm_num, ?_, ?_⟩
  · unfold jsLineTotal
    rw [show round2 ((1 : ℚ) * 3) = 3 from by
      rw [round2_of_isCent ⟨300, by norm_num⟩]; norm_num]
    rw [round2_eval (n := 347) (by norm_num) (by norm_num)]
    norm_num
  · show apply_sign ((3 : ℚ) * 1) DocType.SALE_RECEIPT = 1 * 3
    rw [apply_sign_nonneg_sale _ (by simp) (by norm_num)]
    norm_num
  · unfold lineGuard
    rw [if_neg (by norm_num)]

/-- Claim C6: `apply_sign` returns `abs(v)` for SALE_INVOICE, SALE_RECEIPT and
DEBIT_NOTE and `-abs(v)` for CREDIT_NOTE; consequently (tax percents being
nonnegative) every monetary field of the built lines and tax buckets of a
CREDIT_NOTE is ≤ 0, and every monetary field of the built lines and tax
buckets of any non-CREDIT_NOTE document is ≥ 0. -/
theorem apply_sign_and_monetary_signs (v : ℚ) (lines : List LineInput)
    (hpct : ∀ l ∈ lines, 0 ≤ l.taxPercent) :
    apply_sign v DocType.SALE_INVOICE = |v| ∧
    apply_sign v DocType.SALE_RECEIPT = |v| ∧
    apply_sign v DocType.DEBIT_NOTE = |v| ∧
    apply_sign v DocType.CREDIT_NOTE = -|v| ∧
    (∀ bl ∈ build_receipt_lines lines DocType.CREDIT_NOTE,
      bl.price ≤ 0 ∧ bl.total ≤ 0) ∧
    (∀ b ∈ build_receipt_taxes (build_receipt_lines lines DocType.CREDIT_NOTE),
      b.taxAmount ≤ 0 ∧ b.salesAmountWithTax ≤ 0) ∧
    (∀ t, t ≠ DocType.CREDIT_NOTE →
      (∀ bl ∈ build_receipt_lines lines t, 0 ≤ bl.price ∧ 0 ≤ bl.total) ∧
      (∀ b ∈ build_receipt_taxes (build_receipt_lines lines t),
        0 ≤ b.taxAmount ∧ 0 ≤ b.salesAmountWithTax)) := by
  have hline_credit : ∀ bl ∈ build_receipt_lines lines DocType.CREDIT_NOTE,
      bl.price ≤ 0 ∧ bl.total ≤ 0 ∧ 0 ≤ bl.taxPercent := by
    intro bl hbl
    obtain ⟨l, hl, j, rfl⟩ := mem_build_receipt_lines_from hbl
    refine ⟨?_, ?_, hpct l hl⟩
    · show apply_sign l.price DocType.CREDIT_NOTE ≤ 0
      unfold apply_sign
      rw [if_pos rfl]
      simp [abs_nonneg]
    · show apply_sign (l.price * l.qty) DocType.CREDIT_NOTE ≤ 0
      unfold apply_sign
      rw [if_pos rfl]
      simp [abs_nonneg]
  have hline_other : ∀ t, t ≠ DocType.CREDIT_NOTE →
      ∀ bl ∈ build_receipt_lines lines t,
        0 ≤ bl.price ∧ 0 ≤ bl.total ∧ 0 ≤ bl.taxPercent := by
    intro t ht bl hbl
    obtain ⟨l, hl, j, rfl⟩ := mem_build_receipt_lines_from hbl
    refine ⟨?_, ?_, hpct l hl⟩
    · show 0 ≤ apply_sign l.price t
      unfold apply_sign
      rw [if_neg ht]
      exact abs_nonneg _
    · show 0 ≤ apply_sign (l.price * l.qty) t
      unfold apply_sign
      rw [if_neg ht]
      exact abs_nonneg _
  refine ⟨by unfold apply_sign; rw [if_neg (by simp)],
    by unfold apply_sign; rw [if_neg (by simp)],
    by unfold apply_sign; rw [if_neg (by simp)],
    by unfold apply_sign; rw [if_pos rfl],
    fun bl hbl => ⟨(hline_credit bl hbl).1, (hline_credit bl hbl).2.1⟩, ?_, ?_⟩
  · refine build_receipt_taxes_pred (· ≤ 0) (· ≤ 0)
      (fun a b => add_nonpos) (fun a b => add_nonpos) ?_
    intro bl hbl
    obtain ⟨hp, htot, hpc⟩ := hline_credit bl hbl
    have htax : lineTax bl ≤ 0 :=
      div_nonpos_iff.mpr (Or.inr ⟨mul_nonpos_iff.mpr (Or.inr ⟨htot, hpc⟩), by norm_num⟩)
    exact ⟨htax, add_nonpos htot htax⟩
  · intro t ht
    refine ⟨fun bl hbl => ⟨(hline_other t ht bl hbl).1, (hline_other t ht bl hbl).2.1⟩, ?_⟩
    refine build_receipt_taxes_pred (0 ≤ ·) (0 ≤ ·)
      (fun a b => add_nonneg) (fun a b => add_nonneg) ?_
    intro bl hbl
    obtain ⟨hp, htot, hpc⟩ := hline_other t ht bl hbl
    have htax : 0 ≤ lineTax bl := div_nonneg (mul_nonneg htot hpc) (by norm_num)
    exact ⟨htax, add_nonneg htot htax⟩

/-- Witness for C6 at a concrete credit-note line list. -/
theorem apply_sign_and_monetary_signs_witness :
    apply_sign (-7) DocType.CREDIT_NOTE = -|(-7 : ℚ)| ∧
    (∀ bl ∈ build_receipt_lines [⟨3, 2, 31 / 2, 517, "517", "11223344", "milk"⟩]
        DocType.CREDIT_NOTE, bl.price ≤ 0 ∧ bl.total ≤ 0) ∧
    (∀ b ∈ build_receipt_taxes
        (build_receipt_lines [⟨3, 2, 31 / 2, 517, "517", "11223344", "milk"⟩]
          DocType.CREDIT_NOTE),
      b.taxAmount ≤ 0 ∧ b.salesAmountWithTax ≤ 0) := by
  have h := apply_sign_and_monetary_signs (-7)
    [⟨3, 2, 31 / 2, 517, "517", "11223344", "milk"⟩]
    (by
      intro l hl
      rw [List.mem_singleton] at hl
      subst hl
      norm_num)
  exact ⟨h.2.2.2.1, h.2.2.2.2.1, h.2.2.2.2.2.1⟩

/-- Claim C3: for every item list, the sum over the tax buckets of
`computeInvoiceTotals` of the bucket gross (`salesAmountWithTax`) equals its
`grandTotal` exactly (hence within any rounding tolerance); and in the
submission pipeline a receipt whose total differs from the summed bucket
gross is rejected with an error before signing, while a successfully
submitted receipt is returned unmodified — never silently corrected. -/
theorem bucket_gross_sum_matches_total (items : List InvItem) (d : Device)
    (r : Receipt) :
    sumBucketGross items = grandTotal items ∧
    (r.total ≠ bucketGrossSum r → ∃ e, submitReceipt d r = Except.error e) ∧
    (∀ sr, submitReceipt d r = Except.ok sr → sr.receipt = r) := by
  refine ⟨?_, ?_, ?_⟩
  · have hvals : ∀ p ∈ taxByKey items, IsCent p.2 := taxByKey_isCent items
    have hsubRaw : IsCent ((items.map lineSub).sum) :=
      isCent_sum (by
        intro x hx
        obtain ⟨it, _, rfl⟩ := List.mem_map.mp hx
        exact round2_isCent _)
    have htaxRaw : IsCent (((taxByKey items).map
        (fun kv => bucketSalesWithTax kv.1.2 kv.2 - kv.2)).sum) :=
      isCent_sum (by
        intro x hx
        obtain ⟨kv, hkv, rfl⟩ := List.mem_map.mp hx
        exact isCent_sub (round2_isCent _) (hvals kv hkv))
    have hsplit :
        (((taxByKey items).map
            (fun kv => bucketSalesWithTax kv.1.2 kv.2 - kv.2)).sum)
          + ((taxByKey items).map Prod.snd).sum
        = ((taxByKey items).map (fun kv => bucketSalesWithTax kv.1.2 kv.2)).sum :=
      sum_map_sub_add (taxByKey items) (fun kv => bucketSalesWithTax kv.1.2 kv.2)
        Prod.snd
    have hsub : subtotal items = (items.map lineSub).sum := by
      unfold subtotal
      exact round2_of_isCent hsubRaw
    have htax : totalTax items = ((taxByKey items).map
        (fun kv => bucketSalesWithTax kv.1.2 kv.2 - kv.2)).sum := by
      unfold totalTax
      exact round2_of_isCent htaxRaw
    have hgrand : grandTotal items = subtotal items + totalTax items := by
      unfold grandTotal
      exact round2_of_isCent (by rw [hsub, htax]; exact isCent_add hsubRaw htaxRaw)
    rw [hgrand, hsub, htax]
    unfold sumBucketGross
    rw [← hsplit, taxByKey_sum]
    ring
  · intro htot
    unfold submitReceipt validateReceipt
    by_cases hv : ¬ d.is_vat_registered ∧ receipt_contains_vat r
    · rw [if_pos hv]
      exact ⟨_, rfl⟩
    · rw [if_neg hv, if_pos htot]
      exact ⟨_, rfl⟩
  · intro sr hsr
    unfold submitReceipt at hsr
    cases hval : validateReceipt d r with
    | error e =>
      rw [hval] at hsr
      exact absurd hsr (by simp)
    | ok u =>
      rw [hval] at hsr
      simp only [Except.ok.injEq] at hsr
      rw [← hsr]
      rfl

/-- Witness for C3 at a concrete item list (two items sharing the 15.5%
bucket, one 0% item) and a concrete mismatching receipt. -/
theorem bucket_gross_sum_matches_total_witness :
    sumBucketGross
        [⟨1, 3 / 2, 31 / 2, "517"⟩, ⟨2, 5, 31 / 2, "517"⟩, ⟨1, 2, 0, "1"⟩]
      = grandTotal
        [⟨1, 3 / 2, 31 / 2, "517"⟩, ⟨2, 5, 31 / 2, "517"⟩, ⟨1, 2, 0, "1"⟩] ∧
    (∃ e, submitReceipt ⟨"D1", true⟩
        ⟨"D1", DocType.SALE_RECEIPT, "USD", 1, "2026-02-14", 1, [], [], none,
          "", "", "", ""⟩
      = Except.error e) := by
  have h := bucket_gross_sum_matches_total
    [⟨1, 3 / 2, 31 / 2, "517"⟩, ⟨2, 5, 31 / 2, "517"⟩, ⟨1, 2, 0, "1"⟩]
    ⟨"D1", true⟩
    ⟨"D1", DocType.SALE_RECEIPT, "USD", 1, "2026-02-14", 1, [], [], none,
      "", "", "", ""⟩
  exact ⟨h.1, h.2.1 (by simp [bucketGrossSum])⟩

theorem addLineToBuckets_keys (l : BuiltLine) (acc : List TaxBucket) :
    (addLineToBuckets l acc).map TaxBucket.taxID
      = if l.taxID ∈ acc.map TaxBucket.taxID then acc.map TaxBucket.taxID
        else acc.map TaxBucket.taxID ++ [l.taxID] := by
  induction acc with
  | nil => simp [addLineToBuckets]
  | cons b rest ih =>
    rw [addLineToBuckets]
    by_cases hk : b.taxID = l.taxID
    · rw [if_pos hk]
      have hmem : l.taxID ∈ (b :: rest).map TaxBucket.taxID := by
        rw [List.map_cons, List.mem_cons]
        exact Or.inl hk.symm
      rw [if_pos hmem]
      simp
    · rw [if_neg hk, List.map_cons, List.map_cons, ih]
      by_cases hmem : l.taxID ∈ rest.map TaxBucket.taxID
      · rw [if_pos hmem, if_pos (List.mem_cons_of_mem _ hmem)]
      · rw [if_neg hmem, if_neg (by
          intro hin
          rcases List.mem_cons.mp hin with h | h
          · exact hk h.symm
          · exact hmem h)]
        simp

theorem build_receipt_taxes_keys (bls : List BuiltLine) :
    (build_receipt_taxes bls).map TaxBucket.taxID
      = firstKeys (bls.map BuiltLine.taxID) := by
  suffices h : ∀ (ls : List BuiltLine) (acc : List TaxBucket),
      ((ls.foldl (fun acc l => addLineToBuckets l acc) acc).map TaxBucket.taxID)
        = ls.foldl (fun ks l => if l.taxID ∈ ks then ks else ks ++ [l.taxID])
            (acc.map TaxBucket.taxID) by
    rw [build_receipt_taxes, h bls [], firstKeys, List.foldl_map]
    rfl
  intro ls
  induction ls with
  | nil => intro acc; rfl
  | cons a rest ih =>
    intro acc
    rw [List.foldl_cons, List.foldl_cons, ih, addLineToBuckets_keys]

/-- Claim C1: the canonical string is exactly the delimiter-free concatenation of
device id, document type, currency, global receipt number, receipt
timestamp, total in integer cents, the tax-bucket block (each bucket
serialized as tax code, tax percent formatted to exactly two decimal
places — `15` becomes `"15.00"` — tax amount in cents, gross amount in
cents, buckets in the order first encountered while scanning lines) and the
previous-receipt hash, which is omitted entirely when the receipt is the
first of its fiscal day; buyer fields never influence the canonical
string. -/
theorem canonical_build_spec (r : Receipt) (h : String)
    (bn bt bv ba : String) (bls : List BuiltLine) :
    (r.previousHash = none →
      build r = r.deviceID ++ docTypeStr r.docType ++ r.currency
        ++ toString r.globalNo ++ r.date ++ toString (toCents r.total)
        ++ taxesBlock r.taxes) ∧
    (r.previousHash = some h →
      build r = r.deviceID ++ docTypeStr r.docType ++ r.currency
        ++ toString r.globalNo ++ r.date ++ toString (toCents r.total)
        ++ taxesBlock r.taxes ++ h) ∧
    build { r with buyerName := bn, buyerTIN := bt, buyerVATNumber := bv, buyerAddress := ba } = build r ∧
    (∀ b : TaxBucket, serializeBucket b
      = b.taxCode ++ fmt2 b.taxPercent ++ toString (toCents b.taxAmount)
        ++ toString (toCents b.salesAmountWithTax)) ∧
    (build_receipt_taxes bls).map TaxBucket.taxID
      = firstKeys (bls.map BuiltLine.taxID) ∧
    fmt2 15 = "15.00" ∧
    fmt2 (29 / 2) = "14.50" := by
  have h1500 : ⌊(15 : ℚ) * 100⌋ = 1500 := floorEval (by norm_num) (by norm_num)
  have h1450 : ⌊(29 / 2 : ℚ) * 100⌋ = 1450 := floorEval (by norm_num) (by norm_num)
  refine ⟨?_, ?_, rfl, fun b => rfl, build_receipt_taxes_keys bls, ?_, ?_⟩
  · intro hnone
    unfold build
    rw [hnone]
    exact String.append_empty _
  · intro hsome
    unfold build
    rw [hsome]
  · unfold fmt2 pad2
    rw [h1500]
    norm_num
    decide
  · unfold fmt2 pad2
    rw [h1450]
    norm_num
    decide

/-- Witness for C1 at concrete receipts: one first-of-day (no previous
hash), one chained to hash "PREV", with one 15.5% bucket. -/
theorem canonical_build_spec_witness :
    build ⟨"D1", DocType.SALE_RECEIPT, "USD", 7, "2026-02-14", 577 / 100, [],
        [⟨517, "517", 31 / 2, 77 / 100, 577 / 100⟩], none, "B", "T", "V", "A"⟩
      = "D1" ++ docTypeStr DocType.SALE_RECEIPT ++ "USD" ++ toString (7 : ℕ)
        ++ "2026-02-14" ++ toString (toCents (577 / 100))
        ++ taxesBlock [⟨517, "517", 31 / 2, 77 / 100, 577 / 100⟩] ∧
    build ⟨"D1", DocType.SALE_RECEIPT, "USD", 8, "2026-02-14", 577 / 100, [],
        [⟨517, "517", 31 / 2, 77 / 100, 577 / 100⟩], some "PREV", "B", "T", "V", "A"⟩
      = "D1" ++ docTypeStr DocType.SALE_RECEIPT ++ "USD" ++ toString (8 : ℕ)
        ++ "2026-02-14" ++ toString (toCents (577 / 100))
        ++ taxesBlock [⟨517, "517", 31 / 2, 77 / 100, 577 / 100⟩] ++ "PREV" := by
  have h1 := canonical_build_spec
    ⟨"D1", DocType.SALE_RECEIPT, "USD", 7, "2026-02-14", 577 / 100, [],
      [⟨517, "517", 31 / 2, 77 / 100, 577 / 100⟩], none, "B", "T", "V", "A"⟩
    "PREV" "" "" "" "" []
  have h2 := canonical_build_spec
    ⟨"D1", DocType.SALE_RECEIPT, "USD", 8, "2026-02-14", 577 / 100, [],
      [⟨517, "517", 31 / 2, 77 / 100, 577 / 100⟩], some "PREV", "B", "T", "V", "A"⟩
    "PREV" "" "" "" "" []
  exact ⟨h1.1 rfl, h2.2.1 rfl⟩

/-- Claim C4: the durable counter is advanced only by a confirmed submission — a
failed or queued outcome leaves the stored counter unchanged and stores the
pending submission, a confirmed outcome persists the allocated number and
the gateway hash — and beginning a submission with a pending entry present
(a retry) reuses the already-allocated number and previous hash instead of
allocating fresh. -/
theorem counter_advances_only_on_confirmation (st : DeviceStore) (a : Allocation)
    (c : String) (h : String) (p : PendingSubmission) :
    (finishSubmission st a c SubmitOutcome.failed).counter = st.counter ∧
    (finishSubmission st a c SubmitOutcome.queued).counter = st.counter ∧
    (finishSubmission st a c (SubmitOutcome.confirmed h)).counter
      = { stored := a.number, lastHash := some h } ∧
    (beginSubmission (finishSubmission st a c SubmitOutcome.failed)).1 = a ∧
    (beginSubmission (finishSubmission st a c SubmitOutcome.queued)).1 = a ∧
    (beginSubmission { counter := st.counter, pending := some p }).1 = p.alloc ∧
    (beginSubmission { counter := st.counter, pending := none }).1
      = allocateNext st.counter ∧
    allocateNext st.counter
      = { number := st.counter.stored + 1, prevHash := st.counter.lastHash } := by
  exact ⟨rfl, rfl, rfl, rfl, rfl, rfl, rfl, rfl⟩

/-- Claim C5: replay submits a take-k (order-preserving, gap-free) slice of the
queue whose numbers ascend consecutively from the last confirmed number; a
number gap or a previous-hash mismatch at the head halts the whole replay
with a fatal ordering error before the inconsistent entry is submitted;
replay only loads QUEUED entries; and a FAILED entry is not retried without
the explicit manual-review action. -/
theorem replay_halts_on_first_inconsistency (n : ℕ) (h : Option String)
    (q : List QueueEntry) (e e2 : QueueEntry) (rest rest2 : List QueueEntry)
    (hgap : e.number ≠ n + 1) (hmis : e2.prevHash ≠ h) :
    (∃ k, (replay n h q).1 = q.take k) ∧
    (replay n h q).1.map QueueEntry.number
      = List.range' (n + 1) (replay n h q).1.length ∧
    replay n h (e :: rest) = ([], some "fatal ordering error") ∧
    replay n h (e2 :: rest2) = ([], some "fatal ordering error") ∧
    (∀ f : QueueEntry, retryFailed f false = none) ∧
    (∀ entries : List QueueEntry, ∀ f ∈ loadQueued entries,
      f.state = EntryState.QUEUED) := by
  refine ⟨?_, ?_, ?_, ?_, ?_, ?_⟩
  · clear hgap hmis
    induction q generalizing n h with
    | nil => exact ⟨0, rfl⟩
    | cons a t ih =>
      rw [replay]
      by_cases hc : a.number = n + 1 ∧ a.prevHash = h
      · rw [if_pos hc]
        obtain ⟨k, hk⟩ := ih a.number (some a.hash)
        exact ⟨k + 1, by rw [List.take_succ_cons, ← hk]⟩
      · rw [if_neg hc]
        exact ⟨0, rfl⟩
  · clear hgap hmis
    induction q generalizing n h with
    | nil => rfl
    | cons a t ih =>
      rw [replay]
      by_cases hc : a.number = n + 1 ∧ a.prevHash = h
      · rw [if_pos hc]
        simp only [List.map_cons, List.length_cons, List.range'_succ]
        rw [hc.1, ih (n + 1) (some a.hash)]
      · rw [if_neg hc]
        rfl
  · rw [replay, if_neg (fun hc => hgap hc.1)]
  · rw [replay, if_neg (fun hc => hmis hc.2)]
  · intro f
    unfold retryFailed
    rw [if_neg (fun hc => by exact absurd hc.2 (by simp))]
  · intro entries f hf
    rw [loadQueued, List.mem_filter] at hf
    exact of_decide_eq_true hf.2

/-- Witness for C5: a queue chained from receipt 4 replays entry 5 but a
gap (number 6 after 4) and a hash mismatch both halt with the fatal
ordering error; unreviewed FAILED entries stay put. -/
theorem replay_halts_on_first_inconsistency_witness :
    replay 4 (some "h4") [⟨6, some "h5", "h6", EntryState.QUEUED⟩]
      = ([], some "fatal ordering error") ∧
    replay 4 (some "h4") [⟨5, some "WRONG", "h5", EntryState.QUEUED⟩]
      = ([], some "fatal ordering error") ∧
    retryFailed ⟨5, some "h4", "h5", EntryState.FAILED⟩ false = none := by
  have h := replay_halts_on_first_inconsistency 4 (some "h4") []
    ⟨6, some "h5", "h6", EntryState.QUEUED⟩
    ⟨5, some "WRONG", "h5", EntryState.QUEUED⟩ [] []
    (by decide) (by decide)
  exact ⟨h.2.2.1, h.2.2.2.1, h.2.2.2.2.1 _⟩

/-- Claim C8: `checkUnique` errors with `DuplicateError` exactly when the
(supplier, external invoice number, document type) triple is already
stored; a submission whose triple is already stored is rejected by the
transactional re-check; a CREDIT_NOTE or DEBIT_NOTE that reuses the
referenced original's external number as its own returns `DuplicateError`;
and a correction without the mandatory reference to the original's global
number is rejected. -/
theorem duplicate_guard_uniqueness (store : List FiscalDoc) (s n : String)
    (t : DocType) (c : DocDraft) (g : ℕ) (orig : String) :
    (checkUnique store s n t = Except.error "DuplicateError"
      ↔ ∃ d ∈ store, d.supplier = s ∧ d.invoiceNumber = n ∧ d.docType = t) ∧
    ((⟨c.supplier, c.invoiceNumber, c.docType⟩ : FiscalDoc) ∈ store →
      ∃ e, submitDocument store c = Except.error e) ∧
    ((c.docType = DocType.CREDIT_NOTE ∨ c.docType = DocType.DEBIT_NOTE) →
      c.reference = some (g, orig) → c.invoiceNumber = orig →
      submitDocument store c = Except.error "DuplicateError") ∧
    ((c.docType = DocType.CREDIT_NOTE ∨ c.docType = DocType.DEBIT_NOTE) →
      c.reference = none →
      submitDocument store c = Except.error "referencedReceiptGlobalNo required") := by
  have hiff : ∀ (st : List FiscalDoc) (s1 n1 : String) (t1 : DocType),
      (st.any (fun d =>
          decide (d.supplier = s1 ∧ d.invoiceNumber = n1 ∧ d.docType = t1)) = true)
        ↔ ∃ d ∈ st, d.supplier = s1 ∧ d.invoiceNumber = n1 ∧ d.docType = t1 := by
    intro st s1 n1 t1
    simp [List.any_eq_true]
  refine ⟨?_, ?_, ?_, ?_⟩
  · unfold checkUnique
    by_cases hc : store.any (fun d =>
        decide (d.supplier = s ∧ d.invoiceNumber = n ∧ d.docType = t)) = true
    · rw [if_pos hc]
      exact iff_of_true rfl ((hiff store s n t).mp hc)
    · rw [if_neg hc]
      exact iff_of_false (by simp) (fun hex => hc ((hiff store s n t).mpr hex))
  · intro hm
    have hdup : checkUnique store c.supplier c.invoiceNumber c.docType
        = Except.error "DuplicateError" := by
      unfold checkUnique
      rw [if_pos ((hiff store c.supplier c.invoiceNumber c.docType).mpr
        ⟨⟨c.supplier, c.invoiceNumber, c.docType⟩, hm, rfl, rfl, rfl⟩)]
    unfold submitDocument entryCheck
    cases hvc : validateCorrection c with
    | error e => exact ⟨e, rfl⟩
    | ok u =>
      rw [hdup]
      exact ⟨"DuplicateError", rfl⟩
  · intro hcor href hnum
    have hc : isCorrection c = true := by
      unfold isCorrection
      rcases hcor with h | h <;> simp [h]
    have hvc : validateCorrection c = Except.error "DuplicateError" := by
      unfold validateCorrection
      rw [if_pos hc, href]
      show (if c.invoiceNumber = orig then Except.error "DuplicateError"
        else Except.ok ()) = Except.error "DuplicateError"
      rw [if_pos hnum]
    unfold submitDocument entryCheck
    rw [hvc]
  · intro hcor href
    have hc : isCorrection c = true := by
      unfold isCorrection
      rcases hcor with h | h <;> simp [h]
    have hvc : validateCorrection c
        = Except.error "referencedReceiptGlobalNo required" := by
      unfold validateCorrection
      rw [if_pos hc, href]
    unfold submitDocument entryCheck
    rw [hvc]

/-- Witness for C8: a stored fiscal invoice ("S", "INV-00123"); a credit
note reusing "INV-00123" as its own number gets `DuplicateError`, and a
second fiscal invoice with the same triple is rejected. -/
theorem duplicate_guard_uniqueness_witness :
    submitDocument [⟨"S", "INV-00123", DocType.SALE_INVOICE⟩]
        ⟨"S", "INV-00123", DocType.CREDIT_NOTE, some (18, "INV-00123")⟩
      = Except.error "DuplicateError" ∧
    (∃ e, submitDocument [⟨"S", "INV-00123", DocType.SALE_INVOICE⟩]
        ⟨"S", "INV-00123", DocType.SALE_INVOICE, none⟩
      = Except.error e) := by
  have h1 := duplicate_guard_uniqueness [⟨"S", "INV-00123", DocType.SALE_INVOICE⟩]
    "S" "INV-00123" DocType.SALE_INVOICE
    ⟨"S", "INV-00123", DocType.CREDIT_NOTE, some (18, "INV-00123")⟩ 18 "INV-00123"
  have h2 := duplicate_guard_uniqueness [⟨"S", "INV-00123", DocType.SALE_INVOICE⟩]
    "S" "INV-00123" DocType.SALE_INVOICE
    ⟨"S", "INV-00123", DocType.SALE_INVOICE, none⟩ 18 "INV-00123"
  exact ⟨h1.2.2.1 (Or.inl rfl) rfl rfl, h2.2.1 (List.mem_singleton.mpr rfl)⟩

/-- Claim C9: a device that is not VAT registered submitting a receipt with a
line carrying a nonzero tax percent is rejected with "VAT not allowed for
non-VAT taxpayer"; no signed receipt (hence no hash or signature) is ever
produced for it; and the frontend tax picker offers such a device only 0%
taxes. -/
theorem vat_blocked_for_non_vat_device (d : Device) (r : Receipt)
    (l : BuiltLine) (hd : d.is_vat_registered = false) (hl : l ∈ r.lines)
    (hpct : l.taxPercent ≠ 0) :
    submitReceipt d r = Except.error "VAT not allowed for non-VAT taxpayer" ∧
    (∀ sr, submitReceipt d r ≠ Except.ok sr) ∧
    (∀ t ∈ availableTaxes false, t.taxPercent = 0) := by
  have hvat : receipt_contains_vat r = true := by
    unfold receipt_contains_vat
    rw [List.any_eq_true]
    exact ⟨l, hl, by simpa using hpct⟩
  have herr : submitReceipt d r
      = Except.error "VAT not allowed for non-VAT taxpayer" := by
    unfold submitReceipt validateReceipt
    rw [if_pos ⟨by rw [hd]; simp, hvat⟩]
  refine ⟨herr, fun sr hsr => by rw [herr] at hsr; exact absurd hsr (by simp), ?_⟩
  intro t ht
  have hmem : t ∈ INVOICE_TAXES.filter (fun t => decide (t.taxPercent = 0)) := by
    simpa [availableTaxes] using ht
  exact of_decide_eq_true (List.mem_filter.mp hmem).2

/-- Witness for C9: a non-VAT-registered device with a single 15.5% line is
rejected before signing. -/
theorem vat_blocked_for_non_vat_device_witness :
    submitReceipt ⟨"DX", false⟩
        ⟨"DX", DocType.SALE_RECEIPT, "USD", 1, "2026-02-14", 347 / 100,
          [⟨1, 3, 1, 3, "517", 31 / 2, 517⟩], [], none, "", "", "", ""⟩
      = Except.error "VAT not allowed for non-VAT taxpayer" := by
  have h := vat_blocked_for_non_vat_device ⟨"DX", false⟩
    ⟨"DX", DocType.SALE_RECEIPT, "USD", 1, "2026-02-14", 347 / 100,
      [⟨1, 3, 1, 3, "517", 31 / 2, 517⟩], [], none, "", "", "", ""⟩
    ⟨1, 3, 1, 3, "517", 31 / 2, 517⟩
    rfl (List.mem_singleton.mpr rfl) (by norm_num)
  exact h.1

/-- Witness for C10: on the nonnegative value 0.005 the frontend and
backend roundings agree. -/
theorem round2_tie_break_divergence_witness :
    round2 (1 / 200) = roundHalfUp2 (1 / 200) :=
  round2_tie_break_divergence.2.2.2.2.2 (1 / 200) (by norm_num)

end Fiscal
